import Mathlib

/-!
Shallow embedding of the SurveySync Connect sync core:
the mock sync-job orchestrator (startSyncJob / getSyncProgress /
cancelSyncJob / simulateSyncProgress), the PostgreSQL schema
compatibility validator, the field-type mapper, the session token
store, and the progress-polling / retry-cooldown client component.
-/

namespace SurveySync

/-- `SyncError` from the API types: `recordId` (empty string for
job-level errors), optional `field`, `message`. -/
structure SyncError where
  recordId : String
  field : Option String
  message : String
  deriving DecidableEq, Repr

/-- Job status enumeration from the API types:
pending | running | completed | failed | cancelled. -/
inductive Status where
  | pending
  | running
  | completed
  | failed
  | cancelled
  deriving DecidableEq, Repr

/-- `SyncProgress` record as used by the mock orchestrator
(counters, errors, timestamps).  Timestamps are opaque strings. -/
structure SyncProgress where
  jobId : String
  status : Status
  totalRecords : Nat
  processedRecords : Nat
  insertedRecords : Nat
  updatedRecords : Nat
  skippedRecords : Nat
  errors : List SyncError
  startedAt : String
  completedAt : Option String
  deriving DecidableEq, Repr

/-- `syncMode` union from `SyncJobConfig`: insert | upsert | replace. -/
inductive SyncMode where
  | insert
  | upsert
  | replace
  deriving DecidableEq, Repr

/-- `SyncJobConfig` from the API types. -/
structure SyncJobConfig where
  formId : String
  targetSchema : String
  targetTable : String
  syncMode : SyncMode
  primaryKeyField : Option String
  createNewTable : Bool
  deriving DecidableEq, Repr

/-- The `activeJobs` registry: a `Map` from job id to job, modelled as
an association list in insertion order. -/
def Registry := List (String × SyncProgress)

/-- `Map.get(jobId)`: first entry with the given key. -/
def lookupJob : List (String × SyncProgress) → String → Option SyncProgress
  | [], _ => none
  | (k, v) :: rest, jobId => if k = jobId then some v else lookupJob rest jobId

/-- `Map.set(jobId, job)`: replace an existing entry in place, or append
a fresh one. -/
def setJob : List (String × SyncProgress) → String → SyncProgress →
    List (String × SyncProgress)
  | [], jobId, job => [(jobId, job)]
  | (k, v) :: rest, jobId, job =>
      if k = jobId then (jobId, job) :: rest else (k, v) :: setJob rest jobId job

/-- The initial `SyncProgress` snapshot built by `startSyncJob`:
pending status, all counters zero, no errors. -/
def initialSnapshot (jobId : String) (now : String) : SyncProgress :=
  { jobId := jobId
    status := .pending
    totalRecords := 0
    processedRecords := 0
    insertedRecords := 0
    updatedRecords := 0
    skippedRecords := 0
    errors := []
    startedAt := now
    completedAt := none }

/-- `startSyncJob(config)`: builds the initial pending snapshot (all
counters zero, no errors), registers it under a freshly generated job id,
kicks off the simulated transfer, and returns the snapshot.  The
generated id and the current timestamp are passed in explicitly; the
config is not inspected at all. -/
def startSyncJob (jobs : List (String × SyncProgress)) (_config : SyncJobConfig)
    (jobId : String) (now : String) :
    SyncProgress × List (String × SyncProgress) :=
  let progress := initialSnapshot jobId now
  (progress, setJob jobs jobId progress)

/-- The fixed job-level error appended by `cancelSyncJob`. -/
def cancelError : SyncError :=
  { recordId := "", field := none, message := "Job cancelled by user" }

/-- `cancelSyncJob(jobId)`: if the job exists and is running, set its
status to failed, push the cancelled-by-user error, and return true;
otherwise return false and leave the registry untouched. -/
def cancelSyncJob (jobs : List (String × SyncProgress)) (jobId : String) :
    Bool × List (String × SyncProgress) :=
  match lookupJob jobs jobId with
  | some job =>
      if job.status = .running then
        (true, setJob jobs jobId
          { job with status := .failed, errors := job.errors ++ [cancelError] })
      else (false, jobs)
  | none => (false, jobs)

/-- `getSyncProgress(jobId)` in the mock orchestrator: registry lookup,
`null` when absent. -/
def getSyncProgress (jobs : List (String × SyncProgress)) (jobId : String) :
    Option SyncProgress :=
  lookupJob jobs jobId

/-- One firing of the `simulateSyncProgress` interval callback while the
job is running.  `toProcess = min(batchSize, totalRecords - processed)`
with `batchSize = 25`; under upsert the batch splits as
`floor(0.6·t)` inserted / `floor(0.35·t)` updated / rest skipped, and in
the insert-only branch as `floor(0.85·t)` inserted / rest skipped
(for `t ≤ 25` the JS float products floor to the same values as exact
rationals).  A 2% random chance appends one record-level error, modelled
by the optional `err`.  When `processed ≥ totalRecords` the job
completes and `completedAt` is set.  The closure-local `processed`
counter always equals `job.processedRecords` here, since this callback
is its only writer. -/
def batchUpdate (mode : SyncMode) (err : Option SyncError) (now : String)
    (job : SyncProgress) : SyncProgress :=
  let remaining := job.totalRecords - job.processedRecords
  let toProcess := min 25 remaining
  let processed := job.processedRecords + toProcess
  let inserted := if mode = .upsert then (6 * toProcess) / 10 else (17 * toProcess) / 20
  let updated := if mode = .upsert then (7 * toProcess) / 20 else 0
  let skipped := toProcess - inserted - updated
  let job1 := { job with
    processedRecords := processed
    insertedRecords := job.insertedRecords + inserted
    updatedRecords := job.updatedRecords + updated
    skippedRecords := job.skippedRecords + skipped
    errors := job.errors ++ err.toList }
  if job1.totalRecords ≤ processed then
    { job1 with status := .completed, completedAt := some now }
  else job1

/-- One observable mutation of a job owned by the mock orchestrator:
the 500 ms timeout that flips pending to running and sets
`totalRecords = floor(random·500) + 100` (some value in [100, 600]);
one interval batch tick (only while running, since the callback clears
the interval otherwise); or `cancelSyncJob` taking effect on a running
job (status becomes failed, the cancelled-by-user error is appended). -/
inductive Step (mode : SyncMode) : SyncProgress → SyncProgress → Prop where
  | toRunning (T : Nat) (job : SyncProgress) (hp : job.status = .pending)
      (h1 : 100 ≤ T) (h2 : T ≤ 600) :
      Step mode job { job with status := .running, totalRecords := T }
  | batch (job : SyncProgress) (err : Option SyncError) (now : String)
      (hr : job.status = .running) :
      Step mode job (batchUpdate mode err now job)
  | cancel (job : SyncProgress) (hr : job.status = .running) :
      Step mode job { job with status := .failed, errors := job.errors ++ [cancelError] }

/-- The snapshots observable for a job between its creation by
`startSyncJob` and any later point: reflexive-transitive closure of the
orchestrator's mutations. -/
def JobReachable (mode : SyncMode) (jobId now : String) (j : SyncProgress) : Prop :=
  Relation.ReflTransGen (Step mode) (initialSnapshot jobId now) j

/-- Auxiliary invariant carried through the induction for the counter
laws: the counters balance, processed never exceeds total, and a pending
job has not yet processed anything nor learned its total. -/
def CounterInv (j : SyncProgress) : Prop :=
  j.insertedRecords + j.updatedRecords + j.skippedRecords = j.processedRecords ∧
  j.processedRecords ≤ j.totalRecords ∧
  (j.status = .pending → j.processedRecords = 0 ∧ j.totalRecords = 0)

/-- SurveyCTO form field descriptor.  The `type` is kept as a string so
that runtime values outside the declared union are representable (the
type mapper has an explicit fallback for them). -/
structure SurveyCTOField where
  name : String
  type : String
  label : String
  isPrimaryKey : Bool
  deriving DecidableEq, Repr

/-- PostgreSQL column descriptor from the API types. -/
structure PostgresColumn where
  name : String
  type : String
  nullable : Bool
  isPrimaryKey : Bool
  deriving DecidableEq, Repr

/-- PostgreSQL table descriptor from the API types. -/
structure PostgresTable where
  name : String
  columns : List PostgresColumn
  primaryKey : Option String
  rowCount : Nat
  deriving DecidableEq, Repr

/-- PostgreSQL schema descriptor from the API types. -/
structure PostgresSchema where
  name : String
  tables : List PostgresTable
  deriving DecidableEq, Repr

/-- Entry of `typeMismatches` in the compatibility report. -/
structure TypeMismatch where
  field : String
  expected : String
  actual : String
  deriving DecidableEq, Repr

/-- `SchemaCompatibility` report from the API types. -/
structure SchemaCompatibility where
  compatible : Bool
  missingColumns : List String
  extraColumns : List String
  typeMismatches : List TypeMismatch
  primaryKeyMatch : Bool
  deriving DecidableEq, Repr

/-- `toLowerCase()` on a string, applied character by character so that
it evaluates inside the kernel.  (Both it and `Char.toLower` lowercase
the ASCII range, which covers every name this code base compares.) -/
def jsToLower (s : String) : String := String.mk (s.data.map Char.toLower)

/-- Target-table lookup inside `validateSchemaCompatibility`:
`schemas.find(s => s.name === targetSchema)?.tables.find(t => t.name ===
targetTable)`. -/
def findTargetTable (schemas : List PostgresSchema)
    (targetSchema targetTable : String) : Option PostgresTable :=
  (schemas.find? (fun s => s.name == targetSchema)).bind
    (fun schema => schema.tables.find? (fun t => t.name == targetTable))

/-- The fixed metadata column set excluded from `extraColumns`. -/
def metadataColumns : List String := ["created_at", "updated_at", "id"]

/-- The report computed by `validateSchemaCompatibility` when the
target table exists: case-insensitive missing/extra column comparison
(with the metadata set excluded from extras), primary-key comparison
against the first source field flagged `isPrimaryKey` (with the `id`
surrogate escape hatch), empty `typeMismatches` in the mock, and
`compatible = missingColumns.isEmpty && primaryKeyMatch`. -/
def compatReport (formFields : List SurveyCTOField) (table : PostgresTable) :
    SchemaCompatibility :=
  let tableColumnNames := table.columns.map (fun c => jsToLower c.name)
  let formFieldNames := formFields.map (fun f => jsToLower f.name)
  let missingColumns :=
    (formFields.filter
      (fun f => !(tableColumnNames.contains (jsToLower f.name)))).map
      (fun f => f.name)
  let extraColumns :=
    (table.columns.filter
      (fun c => !(formFieldNames.contains (jsToLower c.name)) &&
        !(metadataColumns.contains (jsToLower c.name)))).map
      (fun c => c.name)
  let formPK := formFields.find? (fun f => f.isPrimaryKey)
  let primaryKeyMatch :=
    match formPK with
    | some f =>
        (table.primaryKey.map jsToLower == some (jsToLower f.name)) ||
        (table.primaryKey.map jsToLower == some "id")
    | none => false
  { compatible := missingColumns.isEmpty && primaryKeyMatch
    missingColumns := missingColumns
    extraColumns := extraColumns
    typeMismatches := []
    primaryKeyMatch := primaryKeyMatch }

/-- `validateSchemaCompatibility(formFields, targetSchema, targetTable)`
from the mock PostgreSQL module.  `connected` models the
`currentConnection` global (`null` makes the call throw); `schemas`
models the `mockSchemas` catalog the mock consults. -/
def validateSchemaCompatibility (connected : Bool) (schemas : List PostgresSchema)
    (formFields : List SurveyCTOField) (targetSchema targetTable : String) :
    Except String SchemaCompatibility :=
  if !connected then .error "Not connected to database"
  else
    match findTargetTable schemas targetSchema targetTable with
    | none =>
        .ok { compatible := true, missingColumns := [], extraColumns := [],
              typeMismatches := [], primaryKeyMatch := true }
    | some table => .ok (compatReport formFields table)

/-- Result of the JS expression `typeMap[fieldType] || 'TEXT'`: either
a PostgreSQL type string (an own entry of the object literal, or the
fallback), or a truthy member inherited from `Object.prototype` — an
object-literal lookup consults the prototype chain, so for a key such
as "toString" it yields the inherited function and the `|| 'TEXT'`
fallback never fires. -/
inductive PgTypeResult where
  | pgType (s : String)
  | inherited (name : String)
  deriving DecidableEq, Repr

/-- The member names a plain object literal inherits from
`Object.prototype` in a browser engine (the standard members plus the
Annex B getter/setter pairs and the `proto` accessor); every one of
them is a function or object and hence truthy under `||`. -/
def objectPrototypeMembers : List String :=
  ["constructor", "hasOwnProperty", "isPrototypeOf", "propertyIsEnumerable",
   "toLocaleString", "toString", "valueOf", "__defineGetter__",
   "__defineSetter__", "__lookupGetter__", "__lookupSetter__", "__proto__"]

/-- `mapFieldTypeToPostgres` as defined in the mock PostgreSQL module:
the object-literal lookup finds an own entry first, otherwise a truthy
`Object.prototype` member (which bypasses the `|| 'TEXT'` fallback),
and only a lookup that comes back undefined falls back to TEXT. -/
def mapFieldTypeToPostgres (fieldType : String) : PgTypeResult :=
  if fieldType = "text" then .pgType "TEXT"
  else if fieldType = "integer" then .pgType "INTEGER"
  else if fieldType = "decimal" then .pgType "NUMERIC"
  else if fieldType = "date" then .pgType "DATE"
  else if fieldType = "datetime" then .pgType "TIMESTAMPTZ"
  else if fieldType = "select_one" then .pgType "TEXT"
  else if fieldType = "select_multiple" then .pgType "TEXT[]"
  else if fieldType = "geopoint" then .pgType "GEOGRAPHY(POINT, 4326)"
  else if fieldType = "calculate" then .pgType "TEXT"
  else if objectPrototypeMembers.contains fieldType then .inherited fieldType
  else .pgType "TEXT"

/-- The nine declared SurveyCTO field types. -/
def knownFieldTypes : List String :=
  ["text", "integer", "decimal", "date", "datetime", "select_one",
   "select_multiple", "geopoint", "calculate"]

end SurveySync

namespace SurveySync.PgApi

/-- `mapFieldTypeToPostgres` as duplicated verbatim in the HTTP-backed
PostgreSQL client module (the table-creation path), with the same
object-literal semantics: own entry, then inherited truthy
`Object.prototype` member, then the `|| 'TEXT'` fallback. -/
def mapFieldTypeToPostgres (fieldType : String) : PgTypeResult :=
  if fieldType = "text" then .pgType "TEXT"
  else if fieldType = "integer" then .pgType "INTEGER"
  else if fieldType = "decimal" then .pgType "NUMERIC"
  else if fieldType = "date" then .pgType "DATE"
  else if fieldType = "datetime" then .pgType "TIMESTAMPTZ"
  else if fieldType = "select_one" then .pgType "TEXT"
  else if fieldType = "select_multiple" then .pgType "TEXT[]"
  else if fieldType = "geopoint" then .pgType "GEOGRAPHY(POINT, 4326)"
  else if fieldType = "calculate" then .pgType "TEXT"
  else if objectPrototypeMembers.contains fieldType then .inherited fieldType
  else .pgType "TEXT"

end SurveySync.PgApi

namespace SurveySync

/-- State of the session-token store: the module-level `inMemoryToken`,
the value under the localStorage key (`none` when absent), and whether a
`window` object exists (browser vs server-side rendering). -/
structure SessionState where
  inMemoryToken : Option String
  localStorage : Option String
  hasWindow : Bool
  deriving DecidableEq, Repr

/-- JavaScript truthiness of a `string | null` value: null and the empty
string are falsy. -/
def jsTruthy : Option String → Bool
  | none => false
  | some s => !(s == "")

/-- `getSessionToken()`: serve the in-memory token when truthy; without
a window return null; otherwise read localStorage, caching a truthy
stored value in memory, and return the stored value. -/
def getSessionToken (s : SessionState) : Option String × SessionState :=
  if jsTruthy s.inMemoryToken then (s.inMemoryToken, s)
  else if !s.hasWindow then (none, s)
  else
    let stored := s.localStorage
    if jsTruthy stored then (stored, { s with inMemoryToken := stored })
    else (stored, s)

/-- `setSessionToken(token)`: overwrite the in-memory token; with a
window, store a truthy token in localStorage and remove the key for a
falsy one. -/
def setSessionToken (s : SessionState) (token : Option String) : SessionState :=
  let s1 := { s with inMemoryToken := token }
  if !s1.hasWindow then s1
  else if jsTruthy token then { s1 with localStorage := token }
  else { s1 with localStorage := none }

/-- `isAuthenticated()` from the SurveyCTO client module:
`getSessionToken() !== null`. -/
def isAuthenticated (s : SessionState) : Bool :=
  ((getSessionToken s).fst).isSome

/-- Externally observed status union in the SyncExecution component. -/
inductive ClientStatus where
  | ready
  | syncing
  | complete
  | failed
  deriving DecidableEq, Repr

/-- The component state relevant to polling and retry gating: observed
status, last progress snapshot, and the cooldown deadline
`retryUntilMs`. -/
structure ClientState where
  status : ClientStatus
  progress : Option SyncProgress
  retryUntilMs : Option Nat
  deriving DecidableEq, Repr

/-- Characters matched by the regex class `\s` (ASCII portion). -/
def isSpaceChar (c : Char) : Bool :=
  c == ' ' || c == '\t' || c == '\n' || c == '\r' || c == '\x0b' || c == '\x0c'

/-- Case-insensitive literal match: `pat` is given in lowercase; on
success returns the remaining input. -/
def matchLowerLit : List Char → List Char → Option (List Char)
  | [], rest => some rest
  | _ :: _, [] => none
  | p :: ps, c :: cs => if c.toLower == p then matchLowerLit ps cs else none

/-- Greedy `\s+`: requires at least one whitespace character and
consumes the maximal run. -/
def takeSpaces1 : List Char → Option (List Char)
  | [] => none
  | c :: cs => if isSpaceChar c then some (cs.dropWhile isSpaceChar) else none

/-- Greedy `(\d+)`: requires at least one ASCII digit, consumes the
maximal run, and returns its decimal value. -/
def takeDigits1 (l : List Char) : Option (Nat × List Char) :=
  let digits := l.takeWhile Char.isDigit
  if digits.isEmpty then none
  else some (digits.foldl (fun n c => 10 * n + (c.toNat - 48)) 0,
             l.dropWhile Char.isDigit)

/-- Attempt to match `retry after\s+(\d+)\s+seconds` (case-insensitive)
starting at this position.  Maximal-munch is faithful here because each
greedy class is disjoint from the character that must follow it. -/
def matchRetryAfterAt (cs : List Char) : Option Nat :=
  (matchLowerLit "retry after".data cs).bind fun r1 =>
  (takeSpaces1 r1).bind fun r2 =>
  (takeDigits1 r2).bind fun nr =>
  (takeSpaces1 nr.2).bind fun r4 =>
  (matchLowerLit "seconds".data r4).map fun _ => nr.1

/-- Leftmost match of the pattern anywhere in the input, as
`String.prototype.match` does for an unanchored regex. -/
def scanRetryAfter : List Char → Option Nat
  | [] => none
  | c :: cs =>
      match matchRetryAfterAt (c :: cs) with
      | some n => some n
      | none => scanRetryAfter cs

/-- `parseRetryAfterSeconds(msg)` from the SyncExecution component:
null/empty messages yield null; otherwise the first regex match's
captured digits as a number (note that a captured "0" is a truthy
string, so zero is returned as a value). -/
def parseRetryAfterSeconds : Option String → Option Nat
  | none => none
  | some msg => scanRetryAfter msg.data

/-- `retryRemainingSeconds`: `max(0, ceil((retryUntilMs - now)/1000))`,
zero when no cooldown deadline is set. -/
def retryRemainingSeconds (nowTick : Nat) (retryUntilMs : Option Nat) : Nat :=
  match retryUntilMs with
  | none => 0
  | some u => if nowTick < u then (u - nowTick + 999) / 1000 else 0

/-- `errors?.[0]?.message` — the message of the first error in the
snapshot's list, if any. -/
def firstErrorMessage (p : SyncProgress) : Option String :=
  p.errors.head?.map (fun e => e.message)

/-- One polling-interval callback of the SyncExecution component.
`result` is what `getSyncProgress` resolved to: `none` both when the
job id is unknown and when the transport request failed (that module
catches every exception and returns null), in which case the callback
returns early and changes nothing.  The `safeNumber`/array
normalization is the identity on this typed model.  On a terminal
snapshot the poller stops and, for a failed snapshot, a cooldown is
derived from the first error's message. -/
def pollCycle (now : Nat) (s : ClientState) (result : Option SyncProgress) :
    ClientState :=
  match result with
  | none => s
  | some updated =>
      let s1 := { s with progress := some updated }
      match updated.status with
      | .completed => { s1 with status := .complete }
      | .failed =>
          let s2 := { s1 with status := .failed }
          let msg := (firstErrorMessage updated).getD ""
          match parseRetryAfterSeconds (some msg) with
          | some secs =>
              if 0 < secs then { s2 with retryUntilMs := some (now + secs * 1000) }
              else s2
          | none => s2
      | _ => s1

/-- The snapshot synthesized in `handleStartSync`'s catch block: failed
status, zero counters, exactly one error with recordId "n/a" and the
exception's message (or the fixed fallback when that is empty).  The
component writes the numeric jobId 0, rendered here as "0". -/
def startFailureSnapshot (nowIso : String) (msg : String) : SyncProgress :=
  { jobId := "0"
    status := .failed
    totalRecords := 0
    processedRecords := 0
    insertedRecords := 0
    updatedRecords := 0
    skippedRecords := 0
    errors := [{ recordId := "n/a", field := none,
                 message := if msg = "" then "Start sync failed" else msg }]
    startedAt := nowIso
    completedAt := some nowIso }

/-- `handleStartSync`: under an active cooldown it returns before any
transport interaction (the `transport` argument is ignored); otherwise
it clears the cooldown, enters syncing, and either records the start
failure snapshot (catch block) or adopts the returned snapshot,
immediately reacting to an instantly terminal status. -/
def startAttempt (nowMs : Nat) (nowIso : String) (s : ClientState)
    (transport : Except String SyncProgress) : ClientState :=
  if 0 < retryRemainingSeconds nowMs s.retryUntilMs then s
  else
    let s0 := { s with retryUntilMs := none, status := ClientStatus.syncing }
    match transport with
    | .error emsg =>
        { s0 with progress := some (startFailureSnapshot nowIso emsg),
                  status := .failed }
    | .ok p =>
        let s1 := { s0 with progress := some p }
        match p.status with
        | .failed =>
            let s2 := { s1 with status := .failed }
            let msg := (firstErrorMessage p).getD ""
            match parseRetryAfterSeconds (some msg) with
            | some secs =>
                if 0 < secs then
                  { s2 with retryUntilMs := some (nowMs + secs * 1000) }
                else s2
            | none => s2
        | .completed => { s1 with status := .complete }
        | _ => s1

/-- A concrete running job used to exercise `cancelSyncJob`. -/
def runningJob : SyncProgress :=
  { jobId := "sync_1", status := .running, totalRecords := 200,
    processedRecords := 50, insertedRecords := 30, updatedRecords := 15,
    skippedRecords := 5, errors := [], startedAt := "t0", completedAt := none }

/-- A job that has just transitioned to running with 100 records. -/
def exampleRunning : SyncProgress :=
  { initialSnapshot "sync_2" "t0" with status := .running, totalRecords := 100 }

/-- `exampleRunning` after one upsert batch tick. -/
def exampleBatched : SyncProgress :=
  batchUpdate .upsert none "t1" exampleRunning

/-- A config whose required fields are all missing/empty. -/
def invalidConfig : SyncJobConfig :=
  { formId := "", targetSchema := "", targetTable := "", syncMode := .insert,
    primaryKeyField := none, createNewTable := false }

/-- Failed snapshot carrying the spec's rate-limit error message. -/
def rateLimitedSnapshot : SyncProgress :=
  { jobId := "sync_3", status := .failed, totalRecords := 0,
    processedRecords := 0, insertedRecords := 0, updatedRecords := 0,
    skippedRecords := 0,
    errors := [{ recordId := "", field := none,
                 message := "Retry after 296 seconds" }],
    startedAt := "t0", completedAt := none }

/-- Failed snapshot whose first error is record-level noise and whose
most recent (last) error is the rate-limit hint. -/
def mixedErrorsSnapshot : SyncProgress :=
  { jobId := "sync_4", status := .failed, totalRecords := 100,
    processedRecords := 10, insertedRecords := 10, updatedRecords := 0,
    skippedRecords := 0,
    errors := [{ recordId := "REC_1", field := some "monthly_income",
                 message := "Value exceeds maximum allowed length" },
               { recordId := "", field := none,
                 message := "Retry after 5 seconds" }],
    startedAt := "t0", completedAt := none }

/-- A client mid-sync with no active cooldown. -/
def cooldownProbeState : ClientState :=
  { status := .syncing, progress := none, retryUntilMs := none }

/-- A failed client under an active cooldown until epoch ms 306000. -/
def cooldownActiveState : ClientState :=
  { status := ClientStatus.failed, progress := none, retryUntilMs := some 306000 }

/-- A client mid-sync polling job sync_8. -/
def pollingSyncingState : ClientState :=
  { status := .syncing, progress := some (initialSnapshot "sync_8" "t0"),
    retryUntilMs := none }

/-- A client that has not started anything yet. -/
def readyClientState : ClientState :=
  { status := .ready, progress := none, retryUntilMs := none }

/-- The spec's worked example: source fields KEY (primary key) and age. -/
def specExampleFields : List SurveyCTOField :=
  [{ name := "KEY", type := "text", label := "Unique ID", isPrimaryKey := true },
   { name := "age", type := "integer", label := "Age", isPrimaryKey := false }]

/-- The spec's worked example target: columns key/age/created_at with
primary key `key`. -/
def specExampleTable : PostgresTable :=
  { name := "households"
    columns := [{ name := "key", type := "TEXT", nullable := false, isPrimaryKey := true },
                { name := "age", type := "INTEGER", nullable := true, isPrimaryKey := false },
                { name := "created_at", type := "TIMESTAMPTZ", nullable := false,
                  isPrimaryKey := false }]
    primaryKey := some "key"
    rowCount := 0 }

/-- Catalog holding the worked-example table under schema public. -/
def specExampleSchemas : List PostgresSchema :=
  [{ name := "public", tables := [specExampleTable] }]

/-- A table whose declared primary key is named "ID" in upper case. -/
def upperIdTable : PostgresTable :=
  { name := "t_upper"
    columns := [{ name := "KEY", type := "TEXT", nullable := false, isPrimaryKey := false }]
    primaryKey := some "ID"
    rowCount := 0 }

/-- Catalog holding `upperIdTable` under schema public. -/
def upperIdSchemas : List PostgresSchema :=
  [{ name := "public", tables := [upperIdTable] }]

/-- A single source field named key, marked primary key. -/
def pkFields : List SurveyCTOField :=
  [{ name := "key", type := "text", label := "Unique ID", isPrimaryKey := true }]

/-- A fresh browser session-store state. -/
def sessionEmpty : SessionState :=
  { inMemoryToken := none, localStorage := none, hasWindow := true }

lemma counterInv_initial (jobId now : String) : CounterInv (initialSnapshot jobId now) := by
  refine ⟨rfl, le_refl 0, fun _ => ⟨rfl, rfl⟩⟩

lemma batchUpdate_counters (mode : SyncMode) (err : Option SyncError) (now : String)
    (job : SyncProgress) :
    ∃ i u, i + u ≤ min 25 (job.totalRecords - job.processedRecords) ∧
      (batchUpdate mode err now job).totalRecords = job.totalRecords ∧
      (batchUpdate mode err now job).processedRecords =
        job.processedRecords + min 25 (job.totalRecords - job.processedRecords) ∧
      (batchUpdate mode err now job).insertedRecords = job.insertedRecords + i ∧
      (batchUpdate mode err now job).updatedRecords = job.updatedRecords + u ∧
      (batchUpdate mode err now job).skippedRecords = job.skippedRecords +
        (min 25 (job.totalRecords - job.processedRecords) - i - u) := by
  refine ⟨if mode = .upsert then (6 * min 25 (job.totalRecords - job.processedRecords)) / 10
      else (17 * min 25 (job.totalRecords - job.processedRecords)) / 20,
    if mode = .upsert then (7 * min 25 (job.totalRecords - job.processedRecords)) / 20
      else 0, ?_, ?_, ?_, ?_, ?_, ?_⟩
  · rcases mode with _ | _ | _ <;> simp <;> omega
  all_goals unfold batchUpdate
  all_goals dsimp only
  all_goals split <;> rfl

lemma batchUpdate_status (mode : SyncMode) (err : Option SyncError) (now : String)
    (job : SyncProgress) :
    (batchUpdate mode err now job).status = .completed ∨
    (batchUpdate mode err now job).status = job.status := by
  unfold batchUpdate
  dsimp only
  split
  · exact Or.inl rfl
  · exact Or.inr rfl

lemma counterInv_step {mode : SyncMode} {j j' : SyncProgress}
    (h : Step mode j j') (inv : CounterInv j) : CounterInv j' := by
  obtain ⟨hsum, hle, hpend⟩ := inv
  cases h with
  | toRunning T _job hp h1 h2 =>
      obtain ⟨hz, _⟩ := hpend hp
      refine ⟨hsum, ?_, fun hcontra => by simp at hcontra⟩
      simp only [hz]
      exact Nat.zero_le T
  | batch _job err now hr =>
      obtain ⟨i, u, hiu, htot, hproc, hins, hupd, hskip⟩ :=
        batchUpdate_counters mode err now j
      have hmin : min 25 (j.totalRecords - j.processedRecords) ≤
          j.totalRecords - j.processedRecords := min_le_right _ _
      refine ⟨?_, ?_, ?_⟩
      · rw [hins, hupd, hskip, hproc]
        omega
      · rw [hproc, htot]
        omega
      · intro hcontra
        rcases batchUpdate_status mode err now j with hst | hst
        · rw [hcontra] at hst
          simp at hst
        · rw [hcontra, hr] at hst
          simp at hst
  | cancel _job hr =>
      exact ⟨hsum, hle, fun hcontra => by simp at hcontra⟩

lemma lookupJob_setJob_self (jobs : List (String × SyncProgress)) (k : String)
    (v : SyncProgress) : lookupJob (setJob jobs k v) k = some v := by
  induction jobs with
  | nil => simp [setJob, lookupJob]
  | cons hd tl ih =>
      obtain ⟨k0, v0⟩ := hd
      by_cases hk : k0 = k
      · simp [setJob, lookupJob, hk]
      · simp [setJob, lookupJob, hk, ih]



/-- C1 (counterexample): cancelling a running job does not set its
status to cancelled — the stored job ends up failed — and `completedAt`
stays unset, contradicting the claim that cancel sets status cancelled
and sets completedAt. -/
theorem cancel_claim_counterexample :
    (cancelSyncJob [("sync_1", runningJob)] "sync_1").fst = true ∧
    lookupJob (cancelSyncJob [("sync_1", runningJob)] "sync_1").snd "sync_1" =
      some { runningJob with status := .failed, errors := [cancelError] } ∧
    Status.failed ≠ Status.cancelled ∧
    ({ runningJob with status := .failed, errors := [cancelError] } : SyncProgress).completedAt = none := by
  refine ⟨rfl, by decide, by decide, rfl⟩

/-- C1 (amended): for a registered running job, cancel returns true and
replaces the job with a copy whose status is failed (not cancelled) and
whose error list gains exactly the fixed job-level cancelled-by-user
error with empty recordId; `completedAt` and the counters are untouched
by the record update.  For a registered non-running job, and for an
unknown id, cancel returns false and leaves the registry unchanged. -/
theorem cancelSyncJob_spec (jobs : List (String × SyncProgress)) (jobId : String) :
    (∀ job, lookupJob jobs jobId = some job → job.status = .running →
      cancelSyncJob jobs jobId =
        (true, setJob jobs jobId
          { job with status := .failed, errors := job.errors ++ [cancelError] })) ∧
    (∀ job, lookupJob jobs jobId = some job → job.status ≠ .running →
      cancelSyncJob jobs jobId = (false, jobs)) ∧
    (lookupJob jobs jobId = none → cancelSyncJob jobs jobId = (false, jobs)) := by
  refine ⟨?_, ?_, ?_⟩
  · intro job hl hs
    unfold cancelSyncJob
    rw [hl]
    simp [hs]
  · intro job hl hs
    unfold cancelSyncJob
    rw [hl]
    simp [hs]
  · intro hl
    unfold cancelSyncJob
    rw [hl]

/-- C1 (witness): the amended cancel behaviour evaluated on a concrete
running job. -/
theorem cancelSyncJob_spec_witness :
    cancelSyncJob [("sync_1", runningJob)] "sync_1" =
      (true, setJob [("sync_1", runningJob)] "sync_1"
        { runningJob with status := .failed, errors := runningJob.errors ++ [cancelError] }) :=
  (cancelSyncJob_spec [("sync_1", runningJob)] "sync_1").1 runningJob (by decide) rfl

/-- C2: at every snapshot reachable from job creation through running
transitions, batch ticks and cancellation, inserted + updated + skipped
equals processed, and processed never exceeds total (total starts at 0
and is set once at the pending-to-running transition, before any batch
runs). -/
theorem syncJob_counter_invariant (mode : SyncMode) (jobId now : String)
    (j : SyncProgress) (h : JobReachable mode jobId now j) :
    j.insertedRecords + j.updatedRecords + j.skippedRecords = j.processedRecords ∧
    j.processedRecords ≤ j.totalRecords := by
  have hinv : CounterInv j := by
    unfold JobReachable at h
    induction h with
    | refl => exact counterInv_initial jobId now
    | tail _hsteps hstep ih => exact counterInv_step hstep ih
  exact ⟨hinv.1, hinv.2.1⟩

/-- C2 (witness): the invariant evaluated after creation, the running
transition, and one upsert batch tick. -/
theorem syncJob_counter_invariant_witness :
    exampleBatched.insertedRecords + exampleBatched.updatedRecords +
        exampleBatched.skippedRecords = exampleBatched.processedRecords ∧
    exampleBatched.processedRecords ≤ exampleBatched.totalRecords :=
  syncJob_counter_invariant .upsert "sync_2" "t0" exampleBatched
    (Relation.ReflTransGen.tail
      (Relation.ReflTransGen.tail Relation.ReflTransGen.refl
        (Step.toRunning 100 (initialSnapshot "sync_2" "t0") rfl (by decide) (by decide)))
      (Step.batch exampleRunning none "t1" rfl))

/-- C7 (counterexample): a config with an empty formId (and empty
schema/table) is not rejected — startSyncJob registers a job for it and
hands back a pending snapshot. -/
theorem start_claim_counterexample :
    (startSyncJob [] invalidConfig "sync_7" "t0").snd =
      [("sync_7", initialSnapshot "sync_7" "t0")] ∧
    (startSyncJob [] invalidConfig "sync_7" "t0").fst.status = .pending ∧
    invalidConfig.formId = "" := by
  exact ⟨rfl, rfl, rfl⟩

/-- C7 (amended): startSyncJob performs no configuration validation at
all — its result is independent of the config — and for every config it
immediately returns a pending snapshot with all counters zero and no
errors, registering that snapshot under the new job id. -/
theorem startSyncJob_spec (jobs : List (String × SyncProgress))
    (config1 config2 : SyncJobConfig) (jobId now : String) :
    startSyncJob jobs config1 jobId now = startSyncJob jobs config2 jobId now ∧
    (startSyncJob jobs config1 jobId now).fst.status = .pending ∧
    (startSyncJob jobs config1 jobId now).fst.totalRecords = 0 ∧
    (startSyncJob jobs config1 jobId now).fst.processedRecords = 0 ∧
    (startSyncJob jobs config1 jobId now).fst.insertedRecords = 0 ∧
    (startSyncJob jobs config1 jobId now).fst.updatedRecords = 0 ∧
    (startSyncJob jobs config1 jobId now).fst.skippedRecords = 0 ∧
    (startSyncJob jobs config1 jobId now).fst.errors = [] ∧
    lookupJob (startSyncJob jobs config1 jobId now).snd jobId =
      some (startSyncJob jobs config1 jobId now).fst := by
  refine ⟨rfl, rfl, rfl, rfl, rfl, rfl, rfl, rfl, ?_⟩
  exact lookupJob_setJob_self jobs jobId (initialSnapshot jobId now)



/-- C6: validating any source field list against a target table that
does not exist in the catalog yields the fully compatible report: empty
missing/extra/mismatch sets and primaryKeyMatch true. -/
theorem validateSchema_new_table_spec (schemas : List PostgresSchema)
    (formFields : List SurveyCTOField) (ts tt : String)
    (hnone : findTargetTable schemas ts tt = none) :
    validateSchemaCompatibility true schemas formFields ts tt =
      .ok { compatible := true, missingColumns := [], extraColumns := [],
            typeMismatches := [], primaryKeyMatch := true } := by
  unfold validateSchemaCompatibility
  rw [hnone]
  rfl

/-- C6 (witness): the new-table path evaluated on a concrete catalog
that lacks the requested table. -/
theorem validateSchema_new_table_spec_witness :
    validateSchemaCompatibility true specExampleSchemas specExampleFields
        "public" "missing_table" =
      .ok { compatible := true, missingColumns := [], extraColumns := [],
            typeMismatches := [], primaryKeyMatch := true } :=
  validateSchema_new_table_spec specExampleSchemas specExampleFields
    "public" "missing_table" (by decide)

/-- C9 (counterexample): the unrecognized source type "toString" does
not map to the generic text type — the object-literal lookup finds the
inherited `Object.prototype.toString` member, which is truthy, so the
`|| 'TEXT'` fallback never fires and the function returns that member
instead of a type string. -/
theorem mapFieldType_prototype_counterexample :
    "toString" ∉ knownFieldTypes ∧
    mapFieldTypeToPostgres "toString" = PgTypeResult.inherited "toString" ∧
    mapFieldTypeToPostgres "toString" ≠ PgTypeResult.pgType "TEXT" := by
  refine ⟨by decide, rfl, by decide⟩

/-- C9 (amended): the field-type mapper realizes the documented mapping
table; an unrecognized source type maps to TEXT unless it names an
`Object.prototype` member, in which case the lookup returns that
inherited truthy member rather than a type string; and the
validator-module copy and the table-creation-path copy agree on every
input (both are pure functions, so determinism is inherent). -/
theorem mapFieldTypeToPostgres_spec :
    mapFieldTypeToPostgres "text" = PgTypeResult.pgType "TEXT" ∧
    mapFieldTypeToPostgres "integer" = PgTypeResult.pgType "INTEGER" ∧
    mapFieldTypeToPostgres "decimal" = PgTypeResult.pgType "NUMERIC" ∧
    mapFieldTypeToPostgres "date" = PgTypeResult.pgType "DATE" ∧
    mapFieldTypeToPostgres "datetime" = PgTypeResult.pgType "TIMESTAMPTZ" ∧
    mapFieldTypeToPostgres "select_one" = PgTypeResult.pgType "TEXT" ∧
    mapFieldTypeToPostgres "select_multiple" = PgTypeResult.pgType "TEXT[]" ∧
    mapFieldTypeToPostgres "geopoint" = PgTypeResult.pgType "GEOGRAPHY(POINT, 4326)" ∧
    mapFieldTypeToPostgres "calculate" = PgTypeResult.pgType "TEXT" ∧
    (∀ s : String, s ∉ knownFieldTypes → s ∉ objectPrototypeMembers →
      mapFieldTypeToPostgres s = PgTypeResult.pgType "TEXT") ∧
    (∀ s : String, s ∉ knownFieldTypes → s ∈ objectPrototypeMembers →
      mapFieldTypeToPostgres s = PgTypeResult.inherited s) ∧
    (∀ s : String, PgApi.mapFieldTypeToPostgres s = mapFieldTypeToPostgres s) := by
  refine ⟨rfl, rfl, rfl, rfl, rfl, rfl, rfl, rfl, rfl, ?_, ?_, fun s => rfl⟩
  · intro s hs hp
    simp only [knownFieldTypes, List.mem_cons, List.not_mem_nil, or_false, not_or] at hs
    obtain ⟨h1, h2, h3, h4, h5, h6, h7, h8, h9⟩ := hs
    simp [mapFieldTypeToPostgres, h1, h2, h3, h4, h5, h6, h7, h8, h9, hp]
  · intro s hs hp
    simp only [knownFieldTypes, List.mem_cons, List.not_mem_nil, or_false, not_or] at hs
    obtain ⟨h1, h2, h3, h4, h5, h6, h7, h8, h9⟩ := hs
    simp [mapFieldTypeToPostgres, h1, h2, h3, h4, h5, h6, h7, h8, h9, hp]

/-- C9 (witness): the TEXT fallback evaluated on a type outside both
the declared union and the prototype members, and the prototype-member
branch evaluated on "toString". -/
theorem mapFieldTypeToPostgres_spec_witness :
    ("barcode" ∉ knownFieldTypes ∧ "barcode" ∉ objectPrototypeMembers ∧
      mapFieldTypeToPostgres "barcode" = PgTypeResult.pgType "TEXT") ∧
    ("toString" ∉ knownFieldTypes ∧ "toString" ∈ objectPrototypeMembers ∧
      mapFieldTypeToPostgres "toString" = PgTypeResult.inherited "toString") :=
  ⟨⟨by decide, by decide,
    (mapFieldTypeToPostgres_spec).2.2.2.2.2.2.2.2.2.1 "barcode"
      (by decide) (by decide)⟩,
   ⟨by decide, by decide,
    (mapFieldTypeToPostgres_spec).2.2.2.2.2.2.2.2.2.2.1 "toString"
      (by decide) (by decide)⟩⟩

/-- C8 (counterexample): a polling cycle whose transport request failed
(getSyncProgress resolved to null) leaves the observed client state
completely unchanged — still syncing, no synthesized error — instead of
surfacing a failed status. -/
theorem polling_transport_failure_counterexample :
    pollCycle 5000 pollingSyncingState none = pollingSyncingState ∧
    pollingSyncingState.status = .syncing ∧
    (pollCycle 5000 pollingSyncingState none).status ≠ ClientStatus.failed := by
  refine ⟨rfl, rfl, by decide⟩

/-- C8 (amended): a transport failure while starting is surfaced as a
failed observed status carrying exactly one synthesized job-level error
(recordId "n/a", the exception's message or a fixed fallback); but a
transport failure during a polling cycle is silently skipped — the
module converts the exception to null and the poll callback returns with
the observed state unchanged.  No exception crosses either boundary. -/
theorem transportFailure_spec :
    (∀ nowMs nowIso s emsg, retryRemainingSeconds nowMs s.retryUntilMs = 0 →
      (startAttempt nowMs nowIso s (.error emsg)).status = ClientStatus.failed ∧
      (startAttempt nowMs nowIso s (.error emsg)).progress =
        some (startFailureSnapshot nowIso emsg) ∧
      (startFailureSnapshot nowIso emsg).status = Status.failed ∧
      (startFailureSnapshot nowIso emsg).errors.length = 1) ∧
    (∀ now s, pollCycle now s none = s) := by
  constructor
  · intro nowMs nowIso s emsg h0
    unfold startAttempt
    rw [h0]
    simp [startFailureSnapshot]
  · intro now s
    rfl

/-- C8 (witness): the start-failure path evaluated on a concrete idle
client and a concrete transport error. -/
theorem transportFailure_spec_witness :
    (startAttempt 0 "t0" readyClientState (.error "Network error")).status =
        ClientStatus.failed ∧
    (startAttempt 0 "t0" readyClientState (.error "Network error")).progress =
        some (startFailureSnapshot "t0" "Network error") ∧
    (startFailureSnapshot "t0" "Network error").status = Status.failed ∧
    (startFailureSnapshot "t0" "Network error").errors.length = 1 :=
  (transportFailure_spec).1 0 "t0" readyClientState "Network error" rfl

/-- C10: setting a non-empty token and reading it back returns that
token; setting null and reading back returns null, with the token
dropped from both the in-memory cache and (in a browser) localStorage;
and the store reports an authenticated session exactly when the last
value set was a truthy (non-empty) token. -/
theorem session_token_roundtrip :
    (∀ s t, t ≠ "" → (getSessionToken (setSessionToken s (some t))).fst = some t) ∧
    (∀ s, (getSessionToken (setSessionToken s none)).fst = none) ∧
    (∀ s, (setSessionToken s none).inMemoryToken = none) ∧
    (∀ s, s.hasWindow = true → (setSessionToken s none).localStorage = none) ∧
    (∀ s tok, isAuthenticated (setSessionToken s tok) = jsTruthy tok) := by
  refine ⟨?_, ?_, ?_, ?_, ?_⟩
  · intro s t ht
    unfold setSessionToken getSessionToken
    by_cases hw : s.hasWindow <;> simp [hw, jsTruthy, ht]
  · intro s
    unfold setSessionToken getSessionToken
    by_cases hw : s.hasWindow <;> simp [hw, jsTruthy]
  · intro s
    unfold setSessionToken
    by_cases hw : s.hasWindow <;> simp [hw, jsTruthy]
  · intro s hw
    unfold setSessionToken
    simp [hw, jsTruthy]
  · intro s tok
    unfold isAuthenticated setSessionToken getSessionToken
    rcases tok with _ | t
    · by_cases hw : s.hasWindow <;> simp [hw, jsTruthy]
    · by_cases ht : t = "" <;> by_cases hw : s.hasWindow <;>
        simp [hw, ht, jsTruthy]

/-- C10 (witness): the round trip evaluated on a fresh browser session
with a concrete token. -/
theorem session_token_roundtrip_witness :
    (getSessionToken (setSessionToken sessionEmpty (some "tok_123"))).fst =
        some "tok_123" ∧
    (setSessionToken sessionEmpty none).localStorage = none :=
  ⟨(session_token_roundtrip).1 sessionEmpty "tok_123" (by decide),
   (session_token_roundtrip).2.2.2.1 sessionEmpty rfl⟩



/-- C3 (counterexample): on a failed snapshot whose most recent (last)
job-level error message is a well-formed "Retry after 5 seconds" hint
but whose first error is record-level noise, the client derives no
cooldown at all — it parses only the first error's message — while the
claim requires availableAtEpochMs = now + 5000. -/
theorem retry_most_recent_counterexample :
    mixedErrorsSnapshot.status = .failed ∧
    (mixedErrorsSnapshot.errors.getLast?).map (fun e => e.message) =
      some "Retry after 5 seconds" ∧
    parseRetryAfterSeconds (some "Retry after 5 seconds") = some 5 ∧
    (pollCycle 1000 cooldownProbeState (some mixedErrorsSnapshot)).retryUntilMs =
      none := by
  refine ⟨rfl, rfl, by decide, by decide⟩

/-- C3 (amended): on a failed snapshot the client parses N out of the
message of the FIRST error in the list (errors[0], not the most
recent): if that parse yields N > 0 the cooldown deadline becomes
now + N·1000, and if the message does not match the pattern the
deadline is left unchanged (no new cooldown).  A retry attempted
strictly before the deadline is rejected with no transport interaction
whatsoever, and an attempt at or after the deadline proceeds (the
client enters syncing on a pending start response). -/
theorem retryCooldown_spec :
    (∀ now : Nat, ∀ s : ClientState, ∀ p : SyncProgress, ∀ n : Nat,
      p.status = .failed →
      parseRetryAfterSeconds (some ((firstErrorMessage p).getD "")) = some n →
      0 < n →
      (pollCycle now s (some p)).retryUntilMs = some (now + n * 1000)) ∧
    (∀ now : Nat, ∀ s : ClientState, ∀ p : SyncProgress,
      p.status = .failed →
      parseRetryAfterSeconds (some ((firstErrorMessage p).getD "")) = none →
      (pollCycle now s (some p)).retryUntilMs = s.retryUntilMs) ∧
    (∀ nowMs : Nat, ∀ nowIso : String, ∀ s : ClientState,
      ∀ transport : Except String SyncProgress, ∀ u : Nat,
      s.retryUntilMs = some u → nowMs < u →
      startAttempt nowMs nowIso s transport = s) ∧
    (∀ nowMs : Nat, ∀ nowIso : String, ∀ s : ClientState,
      ∀ p : SyncProgress, ∀ u : Nat,
      s.retryUntilMs = some u → u ≤ nowMs → p.status = .pending →
      (startAttempt nowMs nowIso s (.ok p)).status = ClientStatus.syncing) := by
  refine ⟨?_, ?_, ?_, ?_⟩
  · intro now s p n hfail hparse hn
    simp [pollCycle, hfail, hparse, hn]
  · intro now s p hfail hparse
    simp [pollCycle, hfail, hparse]
  · intro nowMs nowIso s transport u hu hlt
    have hpos : 0 < retryRemainingSeconds nowMs s.retryUntilMs := by
      rw [hu]
      show 0 < (if nowMs < u then (u - nowMs + 999) / 1000 else 0)
      rw [if_pos hlt]
      omega
    unfold startAttempt
    rw [if_pos hpos]
  · intro nowMs nowIso s p u hu hle hp
    have hz : retryRemainingSeconds nowMs s.retryUntilMs = 0 := by
      rw [hu]
      show (if nowMs < u then (u - nowMs + 999) / 1000 else 0) = 0
      rw [if_neg (by omega)]
    simp [startAttempt, hz, hp]

/-- C3 (witness): the spec's 296-second example — the cooldown deadline
lands 296 000 ms after the failure, an attempt 1 ms before it is a
no-op, and an attempt at the deadline proceeds. -/
theorem retryCooldown_spec_witness :
    (pollCycle 10000 cooldownProbeState (some rateLimitedSnapshot)).retryUntilMs =
        some (10000 + 296 * 1000) ∧
    startAttempt 305999 "t1" cooldownActiveState
        (.ok (initialSnapshot "sync_3b" "t1")) = cooldownActiveState ∧
    (startAttempt 306000 "t1" cooldownActiveState
        (.ok (initialSnapshot "sync_3b" "t1"))).status = ClientStatus.syncing :=
  ⟨(retryCooldown_spec).1 10000 cooldownProbeState rateLimitedSnapshot 296
      rfl (by decide) (by decide),
   (retryCooldown_spec).2.2.1 305999 "t1" cooldownActiveState _ 306000 rfl (by decide),
   (retryCooldown_spec).2.2.2 306000 "t1" cooldownActiveState
      (initialSnapshot "sync_3b" "t1") 306000 rfl (by decide) rfl⟩



lemma validate_existing_eq (schemas : List PostgresSchema)
    (formFields : List SurveyCTOField) (ts tt : String) (table : PostgresTable)
    (hfound : findTargetTable schemas ts tt = some table) :
    validateSchemaCompatibility true schemas formFields ts tt =
      Except.ok (compatReport formFields table) := by
  unfold validateSchemaCompatibility
  rw [hfound]
  rfl

/-- C4: for an existing target table, missingColumns lists exactly the
source field names (source order, original casing) whose lowercased
name matches no lowercased target column name; extraColumns lists
exactly the target column names whose lowercased name matches no
lowercased source field name and is outside the created_at /
updated_at / id metadata set; and the report is compatible precisely
when missingColumns is empty and the primary keys match —
extraColumns and the (always empty) typeMismatches never block
compatibility. -/
theorem validateSchema_existing_table_spec (schemas : List PostgresSchema)
    (formFields : List SurveyCTOField) (ts tt : String) (table : PostgresTable)
    (hfound : findTargetTable schemas ts tt = some table) :
    validateSchemaCompatibility true schemas formFields ts tt =
      Except.ok (compatReport formFields table) ∧
    (compatReport formFields table).missingColumns =
      (formFields.filter (fun f =>
        decide (∀ c ∈ table.columns, jsToLower c.name ≠ jsToLower f.name))).map
        (fun f => f.name) ∧
    (compatReport formFields table).extraColumns =
      (table.columns.filter (fun c =>
        decide ((∀ f ∈ formFields, jsToLower f.name ≠ jsToLower c.name) ∧
          jsToLower c.name ≠ "created_at" ∧ jsToLower c.name ≠ "updated_at" ∧
          jsToLower c.name ≠ "id"))).map (fun c => c.name) ∧
    (compatReport formFields table).typeMismatches = [] ∧
    ((compatReport formFields table).compatible = true ↔
      ((compatReport formFields table).missingColumns = [] ∧
       (compatReport formFields table).primaryKeyMatch = true)) := by
  refine ⟨validate_existing_eq schemas formFields ts tt table hfound, ?_, ?_, ?_, ?_⟩
  · unfold compatReport
    dsimp only
    refine congrArg (List.map _) (List.filter_congr ?_)
    intro f _
    rw [Bool.eq_iff_iff]
    simp [List.mem_map]
  · unfold compatReport
    dsimp only
    refine congrArg (List.map _) (List.filter_congr ?_)
    intro c _
    rw [Bool.eq_iff_iff]
    simp [List.mem_map, metadataColumns]
  · rfl
  · unfold compatReport
    dsimp only
    rw [Bool.and_eq_true]
    simp [List.isEmpty_iff]



/-- C4 (witness): the spec's worked example — fields KEY (pk) and age
against columns key/age/created_at — has no missing and no extra
columns (created_at is excluded as metadata). -/
theorem validateSchema_existing_table_spec_witness :
    validateSchemaCompatibility true specExampleSchemas specExampleFields
        "public" "households" =
      Except.ok (compatReport specExampleFields specExampleTable) ∧
    (compatReport specExampleFields specExampleTable).missingColumns = [] ∧
    (compatReport specExampleFields specExampleTable).extraColumns = [] := by
  obtain ⟨hok, hmiss, hextra, _, _⟩ :=
    validateSchema_existing_table_spec specExampleSchemas specExampleFields
      "public" "households" specExampleTable (by decide)
  refine ⟨hok, ?_, ?_⟩
  · rw [hmiss]
    decide
  · rw [hextra]
    decide

/-- C5 (amended): for an existing target table, primaryKeyMatch holds
exactly when the first source field flagged isPrimaryKey exists and
either its name matches the target's declared primary key
case-insensitively or the target's primary key lowercases to "id"
(i.e. it is named "id" case-insensitively, not only exactly "id");
when no source field is flagged, primaryKeyMatch is false and no error
is raised. -/
theorem validateSchema_primaryKey_spec (schemas : List PostgresSchema)
    (formFields : List SurveyCTOField) (ts tt : String) (table : PostgresTable)
    (hfound : findTargetTable schemas ts tt = some table) :
    validateSchemaCompatibility true schemas formFields ts tt =
      Except.ok (compatReport formFields table) ∧
    ((compatReport formFields table).primaryKeyMatch = true ↔
      (∃ f, formFields.find? (fun g => g.isPrimaryKey) = some f ∧
        (table.primaryKey.map jsToLower = some (jsToLower f.name) ∨
         table.primaryKey.map jsToLower = some "id"))) ∧
    (formFields.find? (fun g => g.isPrimaryKey) = none →
      (compatReport formFields table).primaryKeyMatch = false) := by
  refine ⟨validate_existing_eq schemas formFields ts tt table hfound, ?_, ?_⟩
  · unfold compatReport
    dsimp only
    cases hf : formFields.find? (fun g => g.isPrimaryKey) with
    | none => simp [hf]
    | some f0 => simp [hf]
  · intro hf
    unfold compatReport
    dsimp only
    rw [hf]

/-- C5 (counterexample): a target whose declared primary key is named
"ID" (not exactly "id") still satisfies primaryKeyMatch for a source
primary-key field named "key" that matches neither — the surrogate-key
escape hatch compares case-insensitively, falsifying the claim's
"named exactly 'id'". -/
theorem pk_exact_id_counterexample :
    validateSchemaCompatibility true upperIdSchemas pkFields "public" "t_upper" =
      Except.ok (compatReport pkFields upperIdTable) ∧
    (compatReport pkFields upperIdTable).primaryKeyMatch = true ∧
    upperIdTable.primaryKey = some "ID" ∧
    (some "ID" : Option String) ≠ some "id" ∧
    (pkFields.find? (fun g => g.isPrimaryKey)).map (fun f => f.name) = some "key" ∧
    jsToLower "ID" ≠ jsToLower "key" := by
  refine ⟨rfl, by decide, rfl, by decide, by decide, by decide⟩

/-- C5 (witness): the amended primary-key rule evaluated on the worked
example, where the source KEY field matches the target key column
case-insensitively. -/
theorem validateSchema_primaryKey_spec_witness :
    validateSchemaCompatibility true specExampleSchemas specExampleFields
        "public" "households" =
      Except.ok (compatReport specExampleFields specExampleTable) ∧
    (compatReport specExampleFields specExampleTable).primaryKeyMatch = true := by
  obtain ⟨hok, hiff, _⟩ :=
    validateSchema_primaryKey_spec specExampleSchemas specExampleFields
      "public" "households" specExampleTable (by decide)
  refine ⟨hok, hiff.mpr ?_⟩
  exact ⟨{ name := "KEY", type := "text", label := "Unique ID", isPrimaryKey := true },
    by decide, Or.inl (by decide)⟩


end SurveySync
